import Mathlib

/-!
A verification development for the Solana integration exercises repository,
centred on the HSM signer lifecycle (`06-hsm-integration/hsm-signer-interface.js`,
`06-hsm-integration/mock-hsm-signer.js`, `06-hsm-integration/hsm-sol-transfer.js`)
and the multi-party authorization engine described by the design document
(the multisig engine itself lives in the external Squads library; only its call
sites appear in `05-multisig/multisig-operations.js`, so that part is modelled
from the design document).

Machine integers are modelled as `Nat`; public keys are opaque `Nat` identifiers;
the external ed25519 key derivation (`Keypair.fromSeed`) is a universally
quantified function parameter, so every theorem about it holds for any concrete
derivation the library might implement.
-/

/-- Public keys are opaque identifiers. -/
abbrev PubKey := Nat

/-- A transaction: an opaque payload plus the list of public keys that have
signed it (`partialSign` appends a signature). -/
structure Transaction where
  payload : Nat
  signatures : List PubKey
deriving DecidableEq, Repr

/-! ### MockHSMSigner (`mock-hsm-signer.js`)

State of a `MockHSMSigner` instance: the constructor stores `seedPhrase` and
sets `keypair = null`; the inherited `HSMSigner` constructor sets
`_publicKey = null`.  A keypair is a (secret, public) pair of `Nat`s. -/
structure MockHSMSigner where
  seedPhrase : String
  keypair : Option (Nat × PubKey)
  pub : Option PubKey
deriving DecidableEq, Repr

/-- A freshly constructed `MockHSMSigner` (`new MockHSMSigner(seedPhrase)`):
`keypair` and `_publicKey` are both `null`. -/
def MockHSMSigner.mk0 (seedPhrase : String) : MockHSMSigner :=
  ⟨seedPhrase, none, none⟩

/-- The 32-byte seed built by `connect`: `Buffer.alloc(32)` (zero-filled)
then `seed.write(this.seedPhrase)` (UTF-8 bytes, truncated to 32). -/
def seedBytes (s : String) : List Nat :=
  let bytes := (s.toUTF8.toList.map UInt8.toNat).take 32
  bytes ++ List.replicate (32 - bytes.length) 0

/-- `MockHSMSigner.connect()`: derives the keypair deterministically from the
seed phrase via the external `Keypair.fromSeed` (here the parameter
`fromSeed`), stores it in `this.keypair`, stores the public key in
`this._publicKey`, and returns `undefined` (modelled as `none`): the JS method
has no `return` statement and the interface documents `@returns
{Promise<void>}`. -/
def MockHSMSigner.connect (fromSeed : List Nat → Nat × PubKey)
    (s : MockHSMSigner) : MockHSMSigner × Option PubKey :=
  let kp := fromSeed (seedBytes s.seedPhrase)
  ({ s with keypair := some kp, pub := some kp.2 }, none)

/-- `MockHSMSigner.signTransaction(transaction)`: throws
`'Mock HSM not connected'` when `this.keypair` is `null`; otherwise signs the
transaction in place (`transaction.partialSign(this.keypair)`) and returns it.
The signer's own state is unchanged. -/
def MockHSMSigner.signTransaction (s : MockHSMSigner) (t : Transaction) :
    Except String Transaction :=
  match s.keypair with
  | none => Except.error "Mock HSM not connected"
  | some kp => Except.ok { t with signatures := t.signatures ++ [kp.2] }

/-- `MockHSMSigner.disconnect()`: sets `this.keypair = null` and
`this._publicKey = null`; never throws. -/
def MockHSMSigner.disconnect (s : MockHSMSigner) : MockHSMSigner :=
  { s with keypair := none, pub := none }

/-- `HSMSigner.publicKey` getter (`hsm-signer-interface.js`): throws
`'HSM not initialized. Call connect() first.'` when `this._publicKey` is
`null`, otherwise returns it. -/
def MockHSMSigner.publicKey (s : MockHSMSigner) : Except String PubKey :=
  match s.pub with
  | none => Except.error "HSM not initialized. Call connect() first."
  | some pk => Except.ok pk

/-- The base-class `HSMSigner.disconnect()` body is empty (a no-op on the
signer's `_publicKey` field; "Override if cleanup is needed"). -/
def HSMSigner.disconnectBase (pub : Option PubKey) : Option PubKey := pub

/-! ### Lifecycle traces

Operations a caller can perform on one `MockHSMSigner` instance, and the state
reached after a sequence of them, starting from a freshly constructed
instance. -/
inductive HSMOp where
  | connect
  | disconnect
  | sign (t : Transaction)
deriving DecidableEq, Repr

/-- One lifecycle operation applied to the signer state.  `sign` does not
change the signer's own state (it only reads `keypair` and mutates the
transaction). -/
def MockHSMSigner.step (fromSeed : List Nat → Nat × PubKey)
    (s : MockHSMSigner) : HSMOp → MockHSMSigner
  | HSMOp.connect => (s.connect fromSeed).1
  | HSMOp.disconnect => s.disconnect
  | HSMOp.sign _ => s

/-- The signer state after a sequence of lifecycle operations. -/
def runOps (fromSeed : List Nat → Nat × PubKey) (s : MockHSMSigner)
    (ops : List HSMOp) : MockHSMSigner :=
  ops.foldl (MockHSMSigner.step fromSeed) s

/-- Whether a session is established after `ops`, given whether one was
established before: `connect` establishes it, `disconnect` releases it,
`sign` leaves it unchanged. -/
def connectedFlag (b : Bool) (ops : List HSMOp) : Bool :=
  ops.foldl (fun c op => match op with
    | HSMOp.connect => true
    | HSMOp.disconnect => false
    | HSMOp.sign _ => c) b

theorem runOps_session (fromSeed : List Nat → Nat × PubKey) :
    ∀ (ops : List HSMOp) (s : MockHSMSigner),
      s.keypair.isSome = s.pub.isSome →
      (runOps fromSeed s ops).keypair.isSome
          = connectedFlag s.keypair.isSome ops ∧
      (runOps fromSeed s ops).pub.isSome
          = connectedFlag s.keypair.isSome ops := by
  intro ops
  induction ops with
  | nil => intro s h; exact ⟨rfl, h.symm⟩
  | cons op rest ih =>
    intro s h
    cases op with
    | connect =>
      have := ih ((s.connect fromSeed).1) (by simp [MockHSMSigner.connect])
      simpa [runOps, connectedFlag, MockHSMSigner.step,
        MockHSMSigner.connect] using this
    | disconnect =>
      have := ih s.disconnect (by simp [MockHSMSigner.disconnect])
      simpa [runOps, connectedFlag, MockHSMSigner.step,
        MockHSMSigner.disconnect] using this
    | sign t =>
      have := ih s h
      simpa [runOps, connectedFlag, MockHSMSigner.step, h] using this

/-! ### Batch signing (`HSMSigner.signAllTransactions`)

The base-class loop: `const signed = []; for (const tx of transactions)
{ signed.push(await this.signTransaction(tx)); } return signed;`.
Each call to `signTransaction` signs its transaction in place; if one throws,
the loop aborts and the error propagates, while the transactions already
processed keep their in-place signatures.  The first component below is the
post-state of the caller's transaction list (the in-place mutations); the
second is the method's return value or thrown error. -/
def signAllTransactions (sign : Transaction → Except String Transaction) :
    List Transaction → List Transaction × Except String (List Transaction)
  | [] => ([], Except.ok [])
  | t :: ts =>
    match sign t with
    | Except.error e => (t :: ts, Except.error e)
    | Except.ok t' =>
      match signAllTransactions sign ts with
      | (post, Except.error e) => (t' :: post, Except.error e)
      | (post, Except.ok signed) => (t' :: post, Except.ok (t' :: signed))

/-! ### The HSM-backed SOL transfer flow (`hsm-sol-transfer.js`)

`main()` connects the mock signer, then runs the body inside `try { ... }
catch (error) { ... } finally { await hsmSigner.disconnect(); }`.  Inside the
body: on localnet/devnet an airdrop is requested, and on airdrop failure the
inner catch logs and returns from `main` (through the finally clause); then
the transaction is signed with the HSM and submitted, any thrown error being
swallowed by the outer catch before the finally clause runs. -/
inductive FlowEvent where
  | connect
  | sign
  | submit
  | disconnect
deriving DecidableEq, Repr

/-- The sequence of signer/ledger interactions performed by `main()` in
`hsm-sol-transfer.js`, together with the final state of the signer, as a
function of the environment outcomes: `needAirdrop` (localnet/devnet),
`airdropOk`, `signOk` (the HSM accepted the signing request) and `submitOk`
(which only affects logging, not control flow past the catch). -/
def hsmTransferFlow (fromSeed : List Nat → Nat × PubKey)
    (needAirdrop airdropOk signOk submitOk : Bool) :
    List FlowEvent × MockHSMSigner :=
  let s1 := ((MockHSMSigner.mk0 "my-secure-seed").connect fromSeed).1
  let body :=
    if needAirdrop && !airdropOk then []
    else FlowEvent.sign :: (if signOk then [FlowEvent.submit] else [])
  (FlowEvent.connect :: (body ++ [FlowEvent.disconnect]), s1.disconnect)

/-! ### Theorems about the signer lifecycle -/

/-- C3: for every signer instance that is not in the Connected state — it was
freshly constructed and `connect` was never called, or `disconnect` was called
since the last `connect` (`connectedFlag false ops = false`) — `signTransaction`
fails with the not-connected error and produces no signed transaction. -/
theorem signTransaction_requires_connected
    (fromSeed : List Nat → Nat × PubKey) (seed : String)
    (ops : List HSMOp) (t : Transaction)
    (h : connectedFlag false ops = false) :
    (runOps fromSeed (MockHSMSigner.mk0 seed) ops).signTransaction t
      = Except.error "Mock HSM not connected" := by
  have hs := runOps_session fromSeed ops (MockHSMSigner.mk0 seed) rfl
  have hk : (runOps fromSeed (MockHSMSigner.mk0 seed) ops).keypair.isSome
      = false := by
    rw [hs.1]; exact h
  have hnone : (runOps fromSeed (MockHSMSigner.mk0 seed) ops).keypair
      = none := by
    cases hcase : (runOps fromSeed (MockHSMSigner.mk0 seed) ops).keypair with
    | none => rfl
    | some kp => rw [hcase] at hk; simp at hk
  simp [MockHSMSigner.signTransaction, hnone]

/-- C3 witness: a fresh signer on which `connect` then `disconnect` was called
is not connected and signing fails with the not-connected error. -/
theorem signTransaction_requires_connected_witness :
    connectedFlag false [HSMOp.connect, HSMOp.disconnect] = false ∧
    (runOps (fun _ => (0, 7)) (MockHSMSigner.mk0 "test-seed")
        [HSMOp.connect, HSMOp.disconnect]).signTransaction ⟨1, []⟩
      = Except.error "Mock HSM not connected" :=
  ⟨rfl, signTransaction_requires_connected (fun _ => (0, 7)) "test-seed"
    [HSMOp.connect, HSMOp.disconnect] ⟨1, []⟩ rfl⟩

/-- C5 counterexample: `MockHSMSigner.connect` does not return the public
identity.  At a concrete derivation function that yields public key `7`, the
value returned by `connect` is `none` (JS `undefined`), while the identity it
stored as a side effect is `some 7`; the return value therefore differs from
the identity that will be used for signatures. -/
theorem connect_return_value_counterexample :
    ((MockHSMSigner.mk0 "test-seed").connect (fun _ => (0, 7))).2 = none ∧
    ((MockHSMSigner.mk0 "test-seed").connect (fun _ => (0, 7))).1.pub
      = some 7 ∧
    ((MockHSMSigner.mk0 "test-seed").connect (fun _ => (0, 7))).2 ≠
      ((MockHSMSigner.mk0 "test-seed").connect (fun _ => (0, 7))).1.pub := by
  refine ⟨rfl, rfl, ?_⟩
  simp [MockHSMSigner.connect]

/-- C5 amended: `connect` establishes the session and determines the public
identity that will be used for signatures, but only as a side effect: its
return value is void (`none`), and the identity is exposed through the
`publicKey` accessor after `connect`. -/
theorem connect_establishes_identity (fromSeed : List Nat → Nat × PubKey)
    (s : MockHSMSigner) :
    (s.connect fromSeed).2 = none ∧
    (s.connect fromSeed).1.publicKey
      = Except.ok (fromSeed (seedBytes s.seedPhrase)).2 := by
  exact ⟨rfl, rfl⟩

/-- C6: `disconnect` is idempotent.  Disconnecting twice yields the same state
as disconnecting once; disconnecting an already-disconnected instance is a
no-op (and never an error — `disconnect` is total); and the base-class
`HSMSigner.disconnect` body is itself a no-op. -/
theorem disconnect_idempotent :
    (∀ s : MockHSMSigner, s.disconnect.disconnect = s.disconnect) ∧
    (∀ s : MockHSMSigner, s.keypair = none → s.pub = none →
        s.disconnect = s) ∧
    (∀ p : Option PubKey, HSMSigner.disconnectBase p = p) := by
  refine ⟨fun s => rfl, fun s h1 h2 => ?_, fun p => rfl⟩
  cases s
  simp_all [MockHSMSigner.disconnect]

/-- C6 witness: disconnecting a freshly constructed (hence disconnected)
instance is a no-op. -/
theorem disconnect_idempotent_witness :
    (MockHSMSigner.mk0 "test-seed").disconnect
      = MockHSMSigner.mk0 "test-seed" :=
  disconnect_idempotent.2.1 (MockHSMSigner.mk0 "test-seed") rfl rfl

/-- C7: the development backend derives its key deterministically from the
seed phrase.  For any derivation function, two instances constructed with the
same seed phrase expose the same public identity after `connect`, and
connecting the same instance twice yields the same identity as connecting it
once. -/
theorem connect_deterministic (fromSeed : List Nat → Nat × PubKey)
    (s1 s2 : MockHSMSigner) (h : s1.seedPhrase = s2.seedPhrase) :
    (s1.connect fromSeed).1.pub = (s2.connect fromSeed).1.pub ∧
    ((s1.connect fromSeed).1.connect fromSeed).1.pub
      = (s1.connect fromSeed).1.pub := by
  constructor
  · simp [MockHSMSigner.connect, h]
  · simp [MockHSMSigner.connect]

/-- C7 witness: two instances built from the seed phrase `my-secure-seed`
agree on the identity after `connect`, at a concrete derivation function. -/
theorem connect_deterministic_witness :
    ((MockHSMSigner.mk0 "my-secure-seed").connect (fun _ => (0, 7))).1.pub
      = ((MockHSMSigner.mk0 "my-secure-seed").connect (fun _ => (0, 7))).1.pub :=
  (connect_deterministic (fun _ => (0, 7)) (MockHSMSigner.mk0 "my-secure-seed")
    (MockHSMSigner.mk0 "my-secure-seed") rfl).1

/-- C8: in every execution of the HSM-backed transfer flow (`connect` on the
mock signer always succeeds), `disconnect` is invoked on the signer as the
last action on every exit path — airdrop failure, signing failure, submission
failure or success — exactly once, and the final signer state holds no
session. -/
theorem hsmTransferFlow_always_disconnects
    (fromSeed : List Nat → Nat × PubKey)
    (needAirdrop airdropOk signOk submitOk : Bool) :
    (hsmTransferFlow fromSeed needAirdrop airdropOk signOk submitOk).1.getLast?
      = some FlowEvent.disconnect ∧
    (hsmTransferFlow fromSeed needAirdrop airdropOk signOk
        submitOk).1.count FlowEvent.disconnect = 1 ∧
    FlowEvent.connect
      ∈ (hsmTransferFlow fromSeed needAirdrop airdropOk signOk submitOk).1 ∧
    (hsmTransferFlow fromSeed needAirdrop airdropOk signOk
        submitOk).2.keypair = none ∧
    (hsmTransferFlow fromSeed needAirdrop airdropOk signOk
        submitOk).2.pub = none := by
  refine ⟨?_, ?_, ?_, rfl, rfl⟩ <;>
    cases needAirdrop <;> cases airdropOk <;> cases signOk <;>
      simp [hsmTransferFlow, List.count_cons, List.count_eq_zero]

/-- C10: the `publicKey` accessor raises the initialization error whenever no
session is established — before any successful `connect`, or after
`disconnect` — rather than returning a null identity; after `connect` it
returns the derived identity. -/
theorem publicKey_requires_session :
    (∀ (fromSeed : List Nat → Nat × PubKey) (seed : String)
        (ops : List HSMOp), connectedFlag false ops = false →
        (runOps fromSeed (MockHSMSigner.mk0 seed) ops).publicKey
          = Except.error "HSM not initialized. Call connect() first.") ∧
    (∀ (fromSeed : List Nat → Nat × PubKey) (s : MockHSMSigner),
        (s.connect fromSeed).1.publicKey
          = Except.ok (fromSeed (seedBytes s.seedPhrase)).2) := by
  constructor
  · intro fromSeed seed ops h
    have hs := runOps_session fromSeed ops (MockHSMSigner.mk0 seed) rfl
    have hp : (runOps fromSeed (MockHSMSigner.mk0 seed) ops).pub.isSome
        = false := by rw [hs.2]; exact h
    have hnone : (runOps fromSeed (MockHSMSigner.mk0 seed) ops).pub
        = none := by
      cases hcase : (runOps fromSeed (MockHSMSigner.mk0 seed) ops).pub with
      | none => rfl
      | some pk => rw [hcase] at hp; simp at hp
    simp [MockHSMSigner.publicKey, hnone]
  · intro fromSeed s
    rfl

/-- C10 witness: a fresh instance (no `connect` yet) raises the
initialization error from the `publicKey` accessor. -/
theorem publicKey_requires_session_witness :
    connectedFlag false ([] : List HSMOp) = false ∧
    (runOps (fun _ => (0, 7)) (MockHSMSigner.mk0 "test-seed") []).publicKey
      = Except.error "HSM not initialized. Call connect() first." :=
  ⟨rfl, publicKey_requires_session.1 (fun _ => (0, 7)) "test-seed" [] rfl⟩

/-- C2: batch signing is sequential and stops at the first failure.  If `sign`
succeeds on every transaction of `pre` (producing `f x` for `x`) and fails on
`t` with error `e`, then on `pre ++ t :: suf` the batch operation leaves the
caller's list with exactly the prefix `pre` signed (the already-signed prefix
is not discarded), the failing transaction and the entire suffix untouched
(the suffix is never attempted, so the batch is not all-or-nothing), and it
propagates the error `e`; if `sign` succeeds on every transaction, the whole
signed list is returned. -/
theorem signAllTransactions_sequential
    (sign : Transaction → Except String Transaction)
    (f : Transaction → Transaction) :
    (∀ (pre suf : List Transaction) (t : Transaction) (e : String),
        (∀ x ∈ pre, sign x = Except.ok (f x)) → sign t = Except.error e →
        signAllTransactions sign (pre ++ t :: suf)
          = (pre.map f ++ t :: suf, Except.error e)) ∧
    (∀ ts : List Transaction, (∀ x ∈ ts, sign x = Except.ok (f x)) →
        signAllTransactions sign ts = (ts.map f, Except.ok (ts.map f))) := by
  have hall : ∀ ts : List Transaction, (∀ x ∈ ts, sign x = Except.ok (f x)) →
      signAllTransactions sign ts = (ts.map f, Except.ok (ts.map f)) := by
    intro ts
    induction ts with
    | nil => intro _; rfl
    | cons t ts ih =>
      intro h
      have ht : sign t = Except.ok (f t) := h t (List.mem_cons_self t ts)
      have hrest := ih (fun x hx => h x (List.mem_cons_of_mem t hx))
      simp [signAllTransactions, ht, hrest]
  refine ⟨?_, hall⟩
  intro pre suf t e hpre ht
  induction pre with
  | nil => simp [signAllTransactions, ht]
  | cons p pre ih =>
    have hp : sign p = Except.ok (f p) := hpre p (List.mem_cons_self p pre)
    have hrest := ih (fun x hx => hpre x (List.mem_cons_of_mem p hx))
    simp [signAllTransactions, hp, hrest]

/-- C2 witness: with a signer that rejects transactions of payload `0`, on the
batch `[⟨1,[]⟩, ⟨0,[]⟩, ⟨2,[]⟩]` the first transaction ends up signed, the
error propagates, and the remaining transactions are untouched. -/
theorem signAllTransactions_sequential_witness :
    signAllTransactions
        (fun t => if t.payload = 0 then Except.error "SigningFailed"
          else Except.ok { t with signatures := t.signatures ++ [9] })
        ([⟨1, []⟩] ++ (⟨0, []⟩ : Transaction) :: [⟨2, []⟩])
      = ([⟨1, [9]⟩] ++ (⟨0, []⟩ : Transaction) :: [⟨2, []⟩],
          Except.error "SigningFailed") :=
  (signAllTransactions_sequential
      (fun t => if t.payload = 0 then Except.error "SigningFailed"
        else Except.ok { t with signatures := t.signatures ++ [9] })
      (fun t => { t with signatures := t.signatures ++ [9] })).1
    [⟨1, []⟩] [⟨2, []⟩] ⟨0, []⟩ "SigningFailed"
    (by intro x hx; rw [List.mem_singleton] at hx; subst hx; rfl)
    rfl

/-! ### The multi-party authorization engine

The registry/proposal state machine executes inside the external Squads
program; `05-multisig/multisig-operations.js` only builds and submits
transactions against it (`multisig.create` with members carrying permission
bitmasks and a threshold, `buildApproveTransaction`, `buildExecuteTransaction`).
The definitions below are therefore modelled from the design document
(§3, §4.1, §4.2), using the permission bit layout visible at the call site
(`mask: 7` = Propose, Approve and Execute; `mask: 3` = Propose and Approve):
bit 0 = Propose, bit 1 = Approve, bit 2 = Execute. -/

/-- A registry member: an opaque public identity plus a permission bitmask. -/
structure Member where
  pubkey : Nat
  mask : Nat
deriving DecidableEq, Repr

/-- Test one permission bit of a member's bitmask. -/
def Member.hasPermission (m : Member) (bit : Nat) : Bool :=
  m.mask.testBit bit

/-- Errors of the authorization engine (design document §7). -/
inductive MsError where
  | invalidThreshold
  | duplicateMember
  | unauthorized
  | proposalNotActive
  | unknownProposal
  | proposalNotReady
  | signingFailed
  | submissionFailed
deriving DecidableEq, Repr

/-- A sealed member registry with its approval threshold and time lock. -/
structure Registry where
  members : List Member
  threshold : Nat
  timeLock : Nat
deriving DecidableEq, Repr

/-- Modelled from the spec: `create(members, threshold) -> Registry` fails
with `InvalidThreshold` if `threshold < 1` or `threshold > len(members)` and
with `DuplicateMember` if any two entries share an identity (§4.1); the Squads
program performing these checks is not part of this repository. -/
def Multisig.create (members : List Member) (threshold : Nat)
    (timeLock : Nat) : Except MsError Registry :=
  if threshold < 1 ∨ members.length < threshold then
    Except.error MsError.invalidThreshold
  else if (members.map Member.pubkey).Nodup then
    Except.ok ⟨members, threshold, timeLock⟩
  else
    Except.error MsError.duplicateMember

/-- A vote decision. -/
inductive Vote where
  | approve
  | reject
deriving DecidableEq, Repr

/-- Proposal lifecycle states (design document §4.2). -/
inductive ProposalState where
  | active
  | approved
  | rejected
  | executed
  | cancelled
deriving DecidableEq, Repr

/-- A proposal: monotonic index, creator identity, the vote map (association
list from member identity to its most recent decision), lifecycle state and
creation time. -/
structure Proposal where
  index : Nat
  creator : Nat
  votes : List (Nat × Vote)
  state : ProposalState
  createdAt : Nat
deriving DecidableEq, Repr

/-- Count of `Approve` votes in a vote map. -/
def approvalCount (votes : List (Nat × Vote)) : Nat :=
  (votes.filter (fun v => decide (v.2 = Vote.approve))).length

/-- Upsert a member's vote: a later vote from the same member overwrites the
earlier one rather than duplicating (design document §3, invariant 1). -/
def upsertVote (votes : List (Nat × Vote)) (member : Nat) (d : Vote) :
    List (Nat × Vote) :=
  if votes.any (fun v => decide (v.1 = member)) then
    votes.map (fun v => if v.1 = member then (member, d) else v)
  else votes ++ [(member, d)]

/-- Modelled from the spec: `create_proposal` (§4.2) — requires the Propose
bit, allocates the given index and stores a new proposal in state `Active`
with an empty vote set; the Squads program implementing it is not part of
this repository. -/
def createProposal (reg : Registry) (creator : Nat) (index : Nat)
    (now : Nat) : Except MsError Proposal :=
  match reg.members.find? (fun m => decide (m.pubkey = creator)) with
  | none => Except.error MsError.unauthorized
  | some mem =>
    if mem.hasPermission 0 then
      Except.ok ⟨index, creator, [], ProposalState.active, now⟩
    else Except.error MsError.unauthorized

/-- Modelled from the spec: `cast_vote` (§4.2) — requires an `Active`
proposal and the Approve bit, upserts the vote, then transitions to
`Approved` exactly when the count of `Approve` votes reaches the threshold
(the minimal required policy: no rejection quorum); the Squads program
implementing it is not part of this repository. -/
def castVote (reg : Registry) (p : Proposal) (member : Nat) (d : Vote) :
    Except MsError Proposal :=
  match reg.members.find? (fun m => decide (m.pubkey = member)) with
  | none => Except.error MsError.unauthorized
  | some mem =>
    if ¬ mem.hasPermission 1 then Except.error MsError.unauthorized
    else if p.state ≠ ProposalState.active then
      Except.error MsError.proposalNotActive
    else
      let votes := upsertVote p.votes member d
      Except.ok { p with
        votes := votes
        state := if reg.threshold ≤ approvalCount votes then
            ProposalState.approved
          else ProposalState.active }

/-- Outcome of the ledger gateway's submit step. -/
inductive SubmitResult where
  | confirmed (receipt : Nat)
  | transientErr
  | permanentErr
deriving DecidableEq, Repr

/-- Result of one `execute_proposal` attempt: the proposal afterwards, how
many times the signer backend was invoked during the attempt, and the
confirmation receipt or error. -/
structure ExecOutcome where
  proposal : Proposal
  signerCalls : Nat
  result : Except MsError Nat
deriving Repr

/-- Modelled from the spec: `execute_proposal` (§4.2) — requires the Execute
bit, the `Approved` state and an elapsed time lock (failing with
`ProposalNotReady` before ever invoking the signer), then invokes the signer
exactly once, submits, and transitions to `Executed` only on ledger
confirmation, leaving the proposal `Approved` on signing or submission
failure; the Approved precondition is consumed atomically with the transition
(§4.2, §5), so concurrent executions of the engine are serialized and
modelled here as sequential atomic calls.  The Squads program implementing it
is not part of this repository. -/
def executeProposal (reg : Registry) (p : Proposal) (executor : Nat)
    (now : Nat) (signOk : Bool) (submit : SubmitResult) : ExecOutcome :=
  match reg.members.find? (fun m => decide (m.pubkey = executor)) with
  | none => ⟨p, 0, Except.error MsError.unauthorized⟩
  | some mem =>
    if ¬ mem.hasPermission 2 then ⟨p, 0, Except.error MsError.unauthorized⟩
    else if p.state ≠ ProposalState.approved ∨ now < p.createdAt + reg.timeLock
    then ⟨p, 0, Except.error MsError.proposalNotReady⟩
    else if ¬ signOk then ⟨p, 1, Except.error MsError.signingFailed⟩
    else match submit with
      | SubmitResult.confirmed r =>
          ⟨{ p with state := ProposalState.executed }, 1, Except.ok r⟩
      | _ => ⟨p, 1, Except.error MsError.submissionFailed⟩

/-! The 2-of-3 demo configuration of `multisig-operations.js`: the creator and
member 1 hold full permissions (mask 7), member 2 holds Propose and Approve
only (mask 3), `threshold: 2`, `timeLock: 0`. -/

/-- The demo registry: members 1, 2, 3 with masks 7, 7, 3 and threshold 2. -/
def demoReg : Registry := ⟨[⟨1, 7⟩, ⟨2, 7⟩, ⟨3, 3⟩], 2, 0⟩

/-- The demo proposal as created: index 0, creator 1, no votes, `Active`. -/
def demoP0 : Proposal := ⟨0, 1, [], ProposalState.active, 0⟩

/-- The demo proposal after member 2's approval: still `Active`. -/
def demoP1 : Proposal := ⟨0, 1, [(2, Vote.approve)], ProposalState.active, 0⟩

/-- The demo proposal after member 3's approval as well: `Approved`. -/
def demoP2 : Proposal :=
  ⟨0, 1, [(2, Vote.approve), (3, Vote.approve)], ProposalState.approved, 0⟩

/-- C1: a proposal transitions to `Approved` exactly when the count of
`Approve` votes reaches the threshold, execution is only permitted once the
`Approved` state is reached (on any other state `execute_proposal` never
returns a confirmation), and in the 2-of-3 demo registry the first approval
leaves the proposal `Active` while the second moves it to `Approved`. -/
theorem proposal_approved_iff_threshold :
    (∀ (reg : Registry) (p : Proposal) (m : Nat) (d : Vote) (q : Proposal),
        castVote reg p m d = Except.ok q →
        (q.state = ProposalState.approved ↔
          reg.threshold ≤ approvalCount q.votes)) ∧
    (∀ (reg : Registry) (p : Proposal) (ex now : Nat) (so : Bool)
        (sub : SubmitResult) (c : Nat), p.state ≠ ProposalState.approved →
        (executeProposal reg p ex now so sub).result ≠ Except.ok c) ∧
    createProposal demoReg 1 0 0 = Except.ok demoP0 ∧
    castVote demoReg demoP0 2 Vote.approve = Except.ok demoP1 ∧
    demoP1.state = ProposalState.active ∧
    castVote demoReg demoP1 3 Vote.approve = Except.ok demoP2 ∧
    demoP2.state = ProposalState.approved := by
  refine ⟨?_, ?_, rfl, rfl, rfl, rfl, rfl⟩
  · intro reg p m d q h
    unfold castVote at h
    cases hf : reg.members.find? (fun mm => decide (mm.pubkey = m)) with
    | none => rw [hf] at h; exact absurd h (by simp)
    | some mem =>
      rw [hf] at h
      by_cases hp : mem.hasPermission 1
      · by_cases hact : p.state = ProposalState.active
        · simp only [hp, not_true, if_false, hact, ne_eq,
            not_false_eq_true, if_true, if_neg] at h
          cases h
          by_cases hth :
              reg.threshold ≤ approvalCount (upsertVote p.votes m d)
          · simp [hth]
          · simp [hth]
        · simp [hp, hact] at h
      · simp [hp] at h
  · intro reg p ex now so sub c hst
    unfold executeProposal
    cases hf : reg.members.find? (fun m => decide (m.pubkey = ex)) with
    | none => simp
    | some mem =>
      by_cases hp : mem.hasPermission 2
      · simp [hp, hst]
      · simp [hp]

/-- C1 witness: in the 2-of-3 demo registry, after member 2's approval the
proposal is not yet `Approved` (one approval is below the threshold), and
after member 3's approval it is (two approvals reach it). -/
theorem proposal_approved_iff_threshold_witness :
    ¬ (demoP1.state = ProposalState.approved) ∧
    demoP2.state = ProposalState.approved :=
  ⟨fun h =>
      absurd ((proposal_approved_iff_threshold.1 demoReg demoP0 2
        Vote.approve demoP1 rfl).mp h) (by decide),
    (proposal_approved_iff_threshold.1 demoReg demoP1 3
        Vote.approve demoP2 rfl).mpr (by decide)⟩

/-- C9: registry creation validates its configuration — `InvalidThreshold`
whenever `threshold < 1` or `threshold > len(members)`, `DuplicateMember`
whenever two entries share an identity, and every successfully constructed
registry satisfies `1 ≤ threshold ≤ member count` (and has pairwise distinct
member identities). -/
theorem create_validates_configuration :
    (∀ (members : List Member) (threshold tl : Nat),
        threshold < 1 ∨ members.length < threshold →
        Multisig.create members threshold tl
          = Except.error MsError.invalidThreshold) ∧
    (∀ (members : List Member) (threshold tl : Nat),
        1 ≤ threshold → threshold ≤ members.length →
        ¬ (members.map Member.pubkey).Nodup →
        Multisig.create members threshold tl
          = Except.error MsError.duplicateMember) ∧
    (∀ (members : List Member) (threshold tl : Nat) (r : Registry),
        Multisig.create members threshold tl = Except.ok r →
        1 ≤ r.threshold ∧ r.threshold ≤ r.members.length ∧
        (r.members.map Member.pubkey).Nodup) := by
  refine ⟨?_, ?_, ?_⟩
  · intro members threshold tl h
    unfold Multisig.create
    rw [if_pos h]
  · intro members threshold tl h1 h2 hdup
    have hcond : ¬ (threshold < 1 ∨ members.length < threshold) := by
      push_neg
      exact ⟨h1, h2⟩
    unfold Multisig.create
    rw [if_neg hcond, if_neg hdup]
  · intro members threshold tl r h
    unfold Multisig.create at h
    by_cases hcond : threshold < 1 ∨ members.length < threshold
    · rw [if_pos hcond] at h
      simp at h
    · rw [if_neg hcond] at h
      by_cases hdup : (members.map Member.pubkey).Nodup
      · rw [if_pos hdup] at h
        injection h with h'
        subst h'
        push_neg at hcond
        exact ⟨hcond.1, hcond.2, hdup⟩
      · rw [if_neg hdup] at h
        simp at h

/-- C9 witness: the demo configuration (three distinct members, threshold 2)
is accepted, and the constructed registry satisfies the invariant. -/
theorem create_validates_configuration_witness :
    1 ≤ demoReg.threshold ∧ demoReg.threshold ≤ demoReg.members.length ∧
    (demoReg.members.map Member.pubkey).Nodup :=
  create_validates_configuration.2.2 [⟨1, 7⟩, ⟨2, 7⟩, ⟨3, 3⟩] 2 0 demoReg rfl

/-- C4: two `execute_proposal` calls on the same `Approved` proposal —
serialized by the per-proposal single-writer lock the design document
requires, hence modelled as sequential atomic calls — result in exactly one
transition to `Executed` and exactly one signer invocation.  The first call
(authorized executor, elapsed time lock, confirmed submission) consumes the
`Approved` precondition atomically with the transition: it invokes the signer
exactly once, marks the proposal `Executed` and returns the receipt; any
second call on the resulting proposal, by any executor with any outcome,
leaves the proposal unchanged, performs zero signer invocations and never
returns a confirmation. -/
theorem executeProposal_exactly_once
    (reg : Registry) (p : Proposal) (ex1 ex2 now1 now2 r : Nat)
    (so2 : Bool) (sub2 : SubmitResult) (mem : Member)
    (hfind : reg.members.find? (fun m => decide (m.pubkey = ex1)) = some mem)
    (hperm : mem.hasPermission 2 = true)
    (hst : p.state = ProposalState.approved)
    (htl : p.createdAt + reg.timeLock ≤ now1) :
    executeProposal reg p ex1 now1 true (SubmitResult.confirmed r)
      = ⟨{ p with state := ProposalState.executed }, 1, Except.ok r⟩ ∧
    (executeProposal reg { p with state := ProposalState.executed }
        ex2 now2 so2 sub2).proposal
      = { p with state := ProposalState.executed } ∧
    (executeProposal reg { p with state := ProposalState.executed }
        ex2 now2 so2 sub2).signerCalls = 0 ∧
    ∀ c, (executeProposal reg { p with state := ProposalState.executed }
        ex2 now2 so2 sub2).result ≠ Except.ok c := by
  have htl' : ¬ now1 < p.createdAt + reg.timeLock := Nat.not_lt.mpr htl
  refine ⟨?_, ?_, ?_, ?_⟩
  · simp [executeProposal, hfind, hperm, hst, htl']
  all_goals
    cases hf2 : reg.members.find? (fun m => decide (m.pubkey = ex2)) with
    | none => simp [executeProposal, hf2]
    | some mem2 =>
      by_cases hp2 : mem2.hasPermission 2 <;>
        simp [executeProposal, hf2, hp2]

/-- C4 witness: in the demo registry, executing the approved demo proposal as
member 1 with a confirmed submission yields `Executed`, one signer call and
the receipt; re-executing the now-`Executed` proposal performs no signer call
and fails. -/
theorem executeProposal_exactly_once_witness :
    executeProposal demoReg demoP2 1 0 true (SubmitResult.confirmed 5)
      = ⟨{ demoP2 with state := ProposalState.executed }, 1, Except.ok 5⟩ ∧
    (executeProposal demoReg { demoP2 with state := ProposalState.executed }
        2 0 true (SubmitResult.confirmed 5)).signerCalls = 0 :=
  ⟨(executeProposal_exactly_once demoReg demoP2 1 2 0 0 5 true
      (SubmitResult.confirmed 5) ⟨1, 7⟩ rfl rfl rfl (Nat.le_refl 0)).1,
    (executeProposal_exactly_once demoReg demoP2 1 2 0 0 5 true
      (SubmitResult.confirmed 5) ⟨1, 7⟩ rfl rfl rfl (Nat.le_refl 0)).2.2.1⟩
